import Mathlib

/-!
Verification of the Resilient Catalog Cache of the art-gallery storefront
client: the `cacheService` (localStorage-backed ETag cache,
`src/services/cache.service.ts`), the axios interceptors and `artworkApi`
methods (`api.service.ts`, reproduced in ETAG_CACHING_GUIDE.md), and the
page-level resolvers (`Prints.tsx` `loadPrints`, `ArtworkDetail.tsx`
`loadArtwork` normalization).

The embedding models JavaScript values reaching this code as a JSON-like
inductive type `JVal` (with JS truthiness), `localStorage` as a partial map
from string keys to stored values, and the network as an explicit server
response parameter.  `undefined` and `null` are identified: the catalog code
only ever distinguishes them by truthiness.
-/

namespace ArtGallery

/-- JSON-like runtime values (response bodies, cached payloads). -/
inductive JVal where
  | null
  | bool (b : Bool)
  | num (n : Int)
  | str (s : String)
  | arr (elems : List JVal)
  | obj (fields : List (String × JVal))

/-- JavaScript truthiness of a `JVal` (`if (x)`), with `null` standing for
both `null` and `undefined`.  Arrays and objects are always truthy. -/
def truthy : JVal → Bool
  | .null => false
  | .bool b => b
  | .num n => n != 0
  | .str s => !s.isEmpty
  | .arr _ => true
  | .obj _ => true

/-- JS property access `x.name`: field lookup on objects, `undefined`
(modelled as `.null`) on anything else or when the field is missing. -/
def jsField : JVal → String → JVal
  | .obj fs, name =>
    match fs.lookup name with
    | some v => v
    | none => .null
  | _, _ => .null

/-- `Array.isArray(x)` together with the extracted element list. -/
def asArr : JVal → Option (List JVal)
  | .arr xs => some xs
  | _ => none

/-! ## localStorage model

A stored slot is either the JSON serialization of a `CacheEntry`
(`{data, etag, timestamp}`, written by `cacheService.set` under the
`api_cache_` prefix) or a plain string (an ETag, written under the `etag_`
prefix and under the fixed key `If-None-Match`). -/

/-- One `localStorage` slot. -/
inductive StoredVal where
  | entry (data : JVal) (etag : String) (timestamp : Nat)
  | raw (s : String)

/-- The browser-origin `localStorage`: a partial map from keys to slots. -/
def Store : Type := String → Option StoredVal

def emptyStore : Store := fun _ => none

/-- Underlying storage primitives.  The `fault` flag injects an underlying
storage error (quota exceeded, storage unavailable): a faulting primitive
raises instead of acting.  `Except Unit` is the exception monad; a `.error`
escaping a `cacheService` operation is an uncaught JS exception. -/
def lsGetItem (fault : Bool) (s : Store) (k : String) :
    Except Unit (Option StoredVal) :=
  if fault then .error () else .ok (s k)

def lsSetItem (fault : Bool) (s : Store) (k : String) (v : StoredVal) :
    Except Unit Store :=
  if fault then .error ()
  else .ok (fun k2 => if k2 = k then some v else s k2)

def lsRemoveItem (fault : Bool) (s : Store) (k : String) :
    Except Unit Store :=
  if fault then .error ()
  else .ok (fun k2 => if k2 = k then none else s k2)

def CACHE_PFX : String := "api_cache_"
def ETAG_PFX : String := "etag_"

/-! ## cacheService operations (cache.service.ts) -/

/-- `cacheService.set(key, data, etag)`: writes the serialized entry under
`api_cache_<key>`, the ETag alone under `etag_<key>` and under the global
key `If-None-Match`, with `timestamp = Date.now()` (the `now` argument).
The whole body is inside `try { ... } catch { log }`; with a uniform fault
the first `setItem` already raises, so the store is left untouched. -/
def cacheSet (fault : Bool) (s : Store) (key : String) (data : JVal)
    (etag : String) (now : Nat) : Except Unit Store :=
  match lsSetItem fault s (CACHE_PFX ++ key) (.entry data etag now) with
  | .error _ => .ok s
  | .ok s1 =>
    match lsSetItem fault s1 (ETAG_PFX ++ key) (.raw etag) with
    | .error _ => .ok s
    | .ok s2 =>
      match lsSetItem fault s2 "If-None-Match" (.raw etag) with
      | .error _ => .ok s
      | .ok s3 => .ok s3

/-- `cacheService.get(key)`: reads `api_cache_<key>`, returns `null` on a
missing slot, otherwise `JSON.parse(...).data`.  Both the read and the parse
sit inside `try/catch` returning `null`; a `.raw` slot under a cache key
(not producible by these operations) is a parse failure, also caught. -/
def cacheGet (fault : Bool) (s : Store) (key : String) : Except Unit JVal :=
  match lsGetItem fault s (CACHE_PFX ++ key) with
  | .error _ => .ok .null
  | .ok none => .ok .null
  | .ok (some (.entry data _ _)) => .ok data
  | .ok (some (.raw _)) => .ok .null

/-- `cacheService.getETag(key)`: reads `etag_<key>` inside `try/catch`.
An `.entry` slot under an ETag key is not producible by these operations;
its stored text is not modelled and the lookup is treated as a miss. -/
def cacheGetETag (fault : Bool) (s : Store) (key : String) :
    Except Unit (Option String) :=
  match lsGetItem fault s (ETAG_PFX ++ key) with
  | .error _ => .ok none
  | .ok (some (.raw e)) => .ok (some e)
  | .ok _ => .ok none

/-- `cacheService.getIfNoneMatch()`: reads the global `If-None-Match` slot
inside `try/catch`. -/
def cacheGetIfNoneMatch (fault : Bool) (s : Store) :
    Except Unit (Option String) :=
  match lsGetItem fault s "If-None-Match" with
  | .error _ => .ok none
  | .ok (some (.raw e)) => .ok (some e)
  | .ok _ => .ok none

/-- `cacheService.has(key)`: `localStorage.getItem(...) !== null`.  Note:
unlike every other operation, the source has no `try/catch` here, so an
underlying storage error propagates. -/
def cacheHas (fault : Bool) (s : Store) (key : String) : Except Unit Bool :=
  (lsGetItem fault s (CACHE_PFX ++ key)).map Option.isSome

/-- `cacheService.remove(key)`: removes `api_cache_<key>` and `etag_<key>`
(but not the global `If-None-Match` slot) inside `try/catch`. -/
def cacheRemove (fault : Bool) (s : Store) (key : String) :
    Except Unit Store :=
  match lsRemoveItem fault s (CACHE_PFX ++ key) with
  | .error _ => .ok s
  | .ok s1 =>
    match lsRemoveItem fault s1 (ETAG_PFX ++ key) with
    | .error _ => .ok s
    | .ok s2 => .ok s2

/-- `cacheService.getCacheAge(key)`: `Date.now() - entry.timestamp`, `null`
on a missing slot, read and parse inside `try/catch` returning `null`. -/
def cacheGetCacheAge (fault : Bool) (s : Store) (key : String) (now : Nat) :
    Except Unit (Option Int) :=
  match lsGetItem fault s (CACHE_PFX ++ key) with
  | .error _ => .ok none
  | .ok none => .ok none
  | .ok (some (.entry _ _ ts)) => .ok (some ((now : Int) - (ts : Int)))
  | .ok (some (.raw _)) => .ok none

/-- Run a `cacheService` call in the fault-free world, where it cannot
raise (the `.error` branch is unreachable for `fault = false`). -/
def okD {α : Type} (d : α) : Except Unit α → α
  | .ok a => a
  | .error _ => d

/-- Fault-free `cacheService.set`. -/
def set0 (s : Store) (key : String) (data : JVal) (etag : String)
    (now : Nat) : Store :=
  okD s (cacheSet false s key data etag now)

/-- Fault-free `cacheService.get`. -/
def get0 (s : Store) (key : String) : JVal :=
  okD .null (cacheGet false s key)

/-- Fault-free `cacheService.getETag`. -/
def getETag0 (s : Store) (key : String) : Option String :=
  okD none (cacheGetETag false s key)

/-- Fault-free `cacheService.getIfNoneMatch`. -/
def getIfNoneMatch0 (s : Store) : Option String :=
  okD none (cacheGetIfNoneMatch false s)

/-- Fault-free `cacheService.remove`. -/
def remove0 (s : Store) (key : String) : Store :=
  okD s (cacheRemove false s key)

/-- Fault-free `cacheService.has`. -/
def has0 (s : Store) (key : String) : Bool :=
  okD false (cacheHas false s key)

/-! ## Key-namespace disjointness

The three families of `localStorage` keys the cache service writes are
pairwise distinct: `api_cache_<k>`, `etag_<k>` and `If-None-Match` never
collide, whatever the logical keys. -/

theorem cachePfx_ne_etagPfx (k k2 : String) :
    CACHE_PFX ++ k ≠ ETAG_PFX ++ k2 := by
  intro h
  have h2 : (CACHE_PFX ++ k).data = (ETAG_PFX ++ k2).data :=
    congrArg String.data h
  obtain ⟨l⟩ := k
  obtain ⟨l2⟩ := k2
  simp [CACHE_PFX, ETAG_PFX, String.data] at h2

theorem cachePfx_ne_inm (k : String) :
    CACHE_PFX ++ k ≠ "If-None-Match" := by
  intro h
  have h2 : (CACHE_PFX ++ k).data = ("If-None-Match" : String).data :=
    congrArg String.data h
  obtain ⟨l⟩ := k
  simp [CACHE_PFX, String.data] at h2

theorem etagPfx_ne_inm (k : String) :
    ETAG_PFX ++ k ≠ "If-None-Match" := by
  intro h
  have h2 : (ETAG_PFX ++ k).data = ("If-None-Match" : String).data :=
    congrArg String.data h
  obtain ⟨l⟩ := k
  simp [ETAG_PFX, String.data] at h2

/-! ## Network model and api.service.ts layer

A server reply is either an HTTP response (status, decoded body, optional
`ETag` header) or a transport failure with no response.  Axios resolves 2xx
statuses and rejects everything else (default `validateStatus`), so 304 and
error statuses flow through the error interceptor. -/

/-- Server behaviour for one request. -/
inductive ServerResp where
  | http (status : Nat) (body : JVal) (etagHdr : Option String)
  | netError

/-- Errors propagated out of the api layer: a response with a non-2xx
status, or a transport failure with no response at all
(`error.response` vs `error.request` on the AxiosError). -/
inductive FetchErr where
  | httpStatus (code : Nat)
  | network
deriving DecidableEq

/-- The request interceptor `If-None-Match` header for a GET of
`/admin/art`: `cacheService.getIfNoneMatch()`, attached only when truthy
(non-null, non-empty). -/
def ifNoneMatchHeader (s : Store) : Option String :=
  match getIfNoneMatch0 s with
  | some e => if e.isEmpty then none else some e
  | none => none

/-- `apiClient.get(/admin/art)` through both interceptors.

* 2xx: the response interceptor caches body and ETag via
  `cacheService.set(admin_art, data, etag)` when both are truthy, and the
  call resolves with the body.
* 304: the error interceptor reads `cacheService.get(admin_art)`; when
  truthy it resolves with the cached data (store untouched), otherwise the
  original 304 error is re-rejected.
* other statuses / transport failure: rejected unchanged. -/
def interceptedGet (s : Store) (resp : ServerResp) (now : Nat) :
    Except FetchErr JVal × Store :=
  match resp with
  | .netError => (.error .network, s)
  | .http status body etagHdr =>
    if 200 ≤ status ∧ status < 300 then
      match etagHdr with
      | some e =>
        if !e.isEmpty && truthy body then
          (.ok body, set0 s "admin_art" body e now)
        else (.ok body, s)
      | none => (.ok body, s)
    else if status = 304 then
      let cached := get0 s "admin_art"
      if truthy cached then (.ok cached, s)
      else (.error (.httpStatus 304), s)
    else (.error (.httpStatus status), s)

/-- `artworkApi.getAll()`: issues the intercepted GET inside `try/catch`;
on failure it returns `cacheService.get(admin_art)` when truthy, else
rethrows. -/
def artworkGetAll (s : Store) (resp : ServerResp) (now : Nat) :
    Except FetchErr JVal × Store :=
  match interceptedGet s resp now with
  | (.ok d, s2) => (.ok d, s2)
  | (.error e, s2) =>
    let cached := get0 s2 "admin_art"
    if truthy cached then (.ok cached, s2) else (.error e, s2)

/-- Server behaviour for one mutation request (body of the success or error
envelope; mutation responses carry no ETag the interceptor would cache,
and none of the mutation requests is a GET of `/admin/art`). -/
inductive MutResp where
  | http (status : Nat) (body : JVal)
  | netError

/-- `artworkApi.create(data)`: POST `/admin/art`; on 2xx it calls
`cacheService.remove(admin_art)` and resolves with the body; on failure
the error propagates and the cache is untouched. -/
def artworkCreate (s : Store) (resp : MutResp) :
    Except FetchErr JVal × Store :=
  match resp with
  | .netError => (.error .network, s)
  | .http status body =>
    if 200 ≤ status ∧ status < 300 then (.ok body, remove0 s "admin_art")
    else (.error (.httpStatus status), s)

/-- `artworkApi.update(id, data)`: PUT `/api/artworks/:id`; on 2xx it
resolves with the body.  Unlike `create` and `delete`, the source performs
no cache invalidation here. -/
def artworkUpdate (s : Store) (resp : MutResp) :
    Except FetchErr JVal × Store :=
  match resp with
  | .netError => (.error .network, s)
  | .http status body =>
    if 200 ≤ status ∧ status < 300 then (.ok body, s)
    else (.error (.httpStatus status), s)

/-- `artworkApi.delete(id)`: DELETE `/admin/art/:id`; on 2xx it calls
`cacheService.remove(admin_art)` and resolves with the body. -/
def artworkDelete (s : Store) (resp : MutResp) :
    Except FetchErr JVal × Store :=
  match resp with
  | .netError => (.error .network, s)
  | .http status body =>
    if 200 ≤ status ∧ status < 300 then (.ok body, remove0 s "admin_art")
    else (.error (.httpStatus status), s)

/-! ## Payload normalization (Prints.tsx / ArtworkDetail.tsx) -/

/-- The `cachedData.data && Array.isArray(cachedData.data.items)` rule
(arrays are always truthy, so the inner truthiness test collapses to
`Array.isArray`). -/
def ruleDataItems (d : JVal) : Option (List JVal) :=
  if truthy (jsField d "data") then asArr (jsField (jsField d "data") "items")
  else none

/-- `loadPrints` normalization (Prints.tsx lines 44-58): the first matching
rule of — bare array; `.data.items`; `.items`; `.artworks` — else the empty
list (`artworksList` is initialized to `[]`). -/
def normalizePrints (d : JVal) : List JVal :=
  match asArr d with
  | some xs => xs
  | none =>
    match ruleDataItems d with
    | some xs => xs
    | none =>
      match asArr (jsField d "items") with
      | some xs => xs
      | none =>
        match asArr (jsField d "artworks") with
        | some xs => xs
        | none => []

/-- `loadArtwork` normalization (ArtworkDetail.tsx lines 53-70): the rules
of `normalizePrints` plus `.data` and `.results` as bare arrays; `none`
(a JS `null`) when nothing matches. -/
def normalizeDetail (d : JVal) : Option (List JVal) :=
  match asArr d with
  | some xs => some xs
  | none =>
    match ruleDataItems d with
    | some xs => some xs
    | none =>
      match asArr (jsField d "items") with
      | some xs => some xs
      | none =>
        match asArr (jsField d "artworks") with
        | some xs => some xs
        | none =>
          match (if truthy (jsField d "data") then asArr (jsField d "data")
                 else none) with
          | some xs => some xs
          | none => asArr (jsField d "results")

/-! ## The Prints page resolver (DataResolver.resolve) -/

/-- Where the rendered list came from (`dataSource` state in Prints.tsx). -/
inductive Provenance where
  | cache
  | api
  | fallback
deriving DecidableEq

/-- The hardcoded static default of Prints.tsx (the single "Abstract
Waves" print rendered when both cache and network fail). -/
def printsFallback : List JVal :=
  [.obj [("id", .num 101),
         ("image_url", .str "https://images.unsplash.com/photo-1579783902614-a3fb3927b6a5?w=800&h=1000&fit=crop"),
         ("title", .str "Abstract Waves"),
         ("artist", .str "Elena Rodriguez"),
         ("price", .num 2500),
         ("category", .str "Abstract"),
         ("description", .str "Limited edition print on premium paper")]]

/-- `loadPrints` (Prints.tsx lines 24-79): try `cacheService.get`; when
falsy, call `artworkApi.getAll` and keep its result on success; a truthy
payload is normalized and tagged with its provenance, anything else falls
back to the hardcoded default list with provenance `fallback`. -/
def loadPrints (s : Store) (resp : ServerResp) (now : Nat) :
    (List JVal × Provenance) × Store :=
  let cached := get0 s "admin_art"
  if truthy cached then ((normalizePrints cached, .cache), s)
  else
    match artworkGetAll s resp now with
    | (.ok d, s2) =>
      if truthy d then ((normalizePrints d, .api), s2)
      else ((printsFallback, .fallback), s2)
    | (.error _, s2) => ((printsFallback, .fallback), s2)

/-! ## Fault-free computation lemmas for the store operations -/

theorem set0_eq (s : Store) (key : String) (data : JVal) (etag : String)
    (now : Nat) :
    set0 s key data etag now = fun k2 =>
      if k2 = "If-None-Match" then some (.raw etag)
      else if k2 = ETAG_PFX ++ key then some (.raw etag)
      else if k2 = CACHE_PFX ++ key then some (.entry data etag now)
      else s k2 := by
  rfl

theorem remove0_eq (s : Store) (key : String) :
    remove0 s key = fun k2 =>
      if k2 = ETAG_PFX ++ key then none
      else if k2 = CACHE_PFX ++ key then none
      else s k2 := by
  rfl

theorem get0_set0_self (s : Store) (key : String) (data : JVal)
    (etag : String) (now : Nat) :
    get0 (set0 s key data etag now) key = data := by
  simp [get0, cacheGet, lsGetItem, okD, set0_eq,
    cachePfx_ne_inm, cachePfx_ne_etagPfx]

theorem getETag0_set0_self (s : Store) (key : String) (data : JVal)
    (etag : String) (now : Nat) :
    getETag0 (set0 s key data etag now) key = some etag := by
  simp [getETag0, cacheGetETag, lsGetItem, okD, set0_eq, etagPfx_ne_inm]

theorem getIfNoneMatch0_set0 (s : Store) (key : String) (data : JVal)
    (etag : String) (now : Nat) :
    getIfNoneMatch0 (set0 s key data etag now) = some etag := by
  simp [getIfNoneMatch0, cacheGetIfNoneMatch, lsGetItem, okD, set0_eq]

theorem get0_remove0_self (s : Store) (key : String) :
    get0 (remove0 s key) key = .null := by
  simp [get0, cacheGet, lsGetItem, okD, remove0_eq,
    cachePfx_ne_etagPfx]

theorem getETag0_remove0_self (s : Store) (key : String) :
    getETag0 (remove0 s key) key = none := by
  simp [getETag0, cacheGetETag, lsGetItem, okD, remove0_eq]

theorem getIfNoneMatch0_remove0 (s : Store) (key : String) :
    getIfNoneMatch0 (remove0 s key) = getIfNoneMatch0 s := by
  have h1 := etagPfx_ne_inm key
  have h2 := cachePfx_ne_inm key
  simp [getIfNoneMatch0, cacheGetIfNoneMatch, lsGetItem, okD, remove0_eq,
    Ne.symm h1, Ne.symm h2]

theorem remove0_idem (s : Store) (key : String) :
    remove0 (remove0 s key) key = remove0 s key := by
  funext k2
  by_cases hE : k2 = ETAG_PFX ++ key <;>
    by_cases hC : k2 = CACHE_PFX ++ key <;>
      simp [remove0_eq, hE, hC]

/-! ## Claim theorems -/

/-- C4: for every key `k`, data `d` and validator `v`, immediately after
`CacheStore.set(k, d, v)` the entry for `k` reads back as written:
`get(k)` returns `d` and `getValidator(k)` returns `v`. -/
theorem C4_set_get_roundtrip (s : Store) (key : String) (data : JVal)
    (etag : String) (now : Nat) :
    get0 (set0 s key data etag now) key = data ∧
    getETag0 (set0 s key data etag now) key = some etag :=
  ⟨get0_set0_self s key data etag now, getETag0_set0_self s key data etag now⟩

/-- C9: for any prior store state, `remove(k)` followed by `get(k)` yields
the absent result (`null`); `remove` is idempotent; and removing a key
whose slots are already absent leaves the store in the same state (and is
not an error). -/
theorem C9_remove_get_absent (s : Store) (key : String) :
    get0 (remove0 s key) key = .null ∧
    remove0 (remove0 s key) key = remove0 s key ∧
    (s (CACHE_PFX ++ key) = none → s (ETAG_PFX ++ key) = none →
      remove0 s key = s) := by
  refine ⟨get0_remove0_self s key, remove0_idem s key, fun h1 h2 => ?_⟩
  funext k2
  by_cases hE : k2 = ETAG_PFX ++ key <;>
    by_cases hC : k2 = CACHE_PFX ++ key <;>
      simp [remove0_eq, hE, hC, h1, h2]

/-- C9 witness: the absent-key clause at the empty store and the catalog
key. -/
theorem C9_remove_get_absent_witness :
    get0 (remove0 emptyStore "admin_art") "admin_art" = .null ∧
    remove0 emptyStore "admin_art" = emptyStore := by
  obtain ⟨h1, _, h3⟩ := C9_remove_get_absent emptyStore "admin_art"
  exact ⟨h1, h3 rfl rfl⟩

/-- Observes whether a `cacheService` call let a JS exception escape. -/
def raised {α : Type} : Except Unit α → Bool
  | .ok _ => false
  | .error _ => true

/-- C8 counterexample: `cacheService.has` has no `try/catch` around its
`localStorage.getItem` call, so an underlying storage error propagates to
the caller, contrary to the claim that every operation degrades. -/
theorem C8_has_raises_cex :
    cacheHas true emptyStore "admin_art" = .error () := rfl

/-- C8 (amended): `set`, `get`, `getETag` (getValidator), `remove` and
`getCacheAge` (ageOf) each catch any underlying storage error and return a
degraded result — they never propagate an exception (in particular `get`
never throws) — but `has` performs its storage read without a `try/catch`
and propagates the error whenever the underlying store fails. -/
theorem C8_degrade_except_has (fault : Bool) (s : Store) (key : String)
    (data : JVal) (etag : String) (now : Nat) :
    raised (cacheSet fault s key data etag now) = false ∧
    raised (cacheGet fault s key) = false ∧
    raised (cacheGetETag fault s key) = false ∧
    raised (cacheRemove fault s key) = false ∧
    raised (cacheGetCacheAge fault s key now) = false ∧
    raised (cacheHas true s key) = true := by
  refine ⟨?_, ?_, ?_, ?_, ?_, rfl⟩
  · unfold cacheSet lsSetItem
    split
    · rfl
    · split
      · rfl
      · split <;> rfl
  · unfold cacheGet lsGetItem
    split <;> rfl
  · unfold cacheGetETag lsGetItem
    split <;> rfl
  · unfold cacheRemove lsRemoveItem
    split
    · rfl
    · split <;> rfl
  · unfold cacheGetCacheAge lsGetItem
    split <;> rfl

/-- C2 counterexample: store a catalog entry with validator `"v1"`, then
`remove(admin_art)`.  The per-key validator is gone, yet the request
interceptor still attaches `If-None-Match: v1` to the next GET, because it
reads the global `If-None-Match` slot, which `remove` does not clear. -/
theorem C2_header_after_remove_cex :
    ifNoneMatchHeader
        (remove0 (set0 emptyStore "admin_art" (.arr []) "v1" 0) "admin_art")
      = some "v1" ∧
    getETag0
        (remove0 (set0 emptyStore "admin_art" (.arr []) "v1" 0) "admin_art")
        "admin_art"
      = none := by
  constructor
  · rw [ifNoneMatchHeader, getIfNoneMatch0_remove0, getIfNoneMatch0_set0]
    rfl
  · exact getETag0_remove0_self _ "admin_art"

/-- C2 (amended): the conditional GET `If-None-Match` value is the global
last-known-validator slot (`cacheService.getIfNoneMatch`), not the per-key
validator.  Immediately after `set(k, d, v)` the two agree — the header
carries `v`, which is also `getValidator(k)` — but `remove(k)` leaves the
global slot untouched, so after a remove the next GET still carries the
previous validator instead of none. -/
theorem C2_header_is_global_validator (s : Store) (key : String)
    (data : JVal) (etag : String) (now : Nat) (h : ¬etag.isEmpty) :
    ifNoneMatchHeader (set0 s key data etag now) = some etag ∧
    getETag0 (set0 s key data etag now) key = some etag ∧
    (∀ (s2 : Store) (k2 : String),
      ifNoneMatchHeader (remove0 s2 k2) = ifNoneMatchHeader s2) := by
  refine ⟨?_, getETag0_set0_self s key data etag now, fun s2 k2 => ?_⟩
  · rw [ifNoneMatchHeader, getIfNoneMatch0_set0]
    simp [h]
  · rw [ifNoneMatchHeader, getIfNoneMatch0_remove0, ifNoneMatchHeader]

/-- C2 witness: the amended statement at the catalog key with validator
`"v1"`. -/
theorem C2_header_is_global_validator_witness :
    ¬("v1" : String).isEmpty ∧
    ifNoneMatchHeader (set0 emptyStore "admin_art" (.arr []) "v1" 0)
      = some "v1" :=
  ⟨by decide,
   (C2_header_is_global_validator emptyStore "admin_art" (.arr []) "v1" 0
      (by decide)).1⟩

/-- C1 counterexample: with a cached catalog entry present, a successful
`artworkApi.update` (HTTP 200) leaves the store byte-for-byte unchanged —
no `CacheStore.remove(admin_art)` happens — and the next resolve still
returns a cache-tagged result. -/
theorem C1_update_keeps_cache_cex :
    (artworkUpdate (set0 emptyStore "admin_art" (.arr []) "v1" 0)
        (.http 200 .null)).2
      = set0 emptyStore "admin_art" (.arr []) "v1" 0 ∧
    ((loadPrints (set0 emptyStore "admin_art" (.arr []) "v1" 0)
        .netError 1).1).2 = Provenance.cache := by
  constructor
  · simp [artworkUpdate]
  · simp [loadPrints, get0_set0_self, truthy]

/-- C1 (amended): on a successful (2xx) mutation, `create` and `delete` do
call `CacheStore.remove` for the catalog key before returning, so the next
read misses the cache; but `update` performs no invalidation at all — it
returns with the store unchanged (its caller is left to evict the key). -/
theorem C1_mutation_invalidation (s : Store) (status : Nat) (body : JVal)
    (h : 200 ≤ status ∧ status < 300) :
    (artworkCreate s (.http status body))
      = (.ok body, remove0 s "admin_art") ∧
    get0 (artworkCreate s (.http status body)).2 "admin_art" = .null ∧
    (artworkDelete s (.http status body))
      = (.ok body, remove0 s "admin_art") ∧
    get0 (artworkDelete s (.http status body)).2 "admin_art" = .null ∧
    (artworkUpdate s (.http status body)) = (.ok body, s) := by
  simp [artworkCreate, artworkDelete, artworkUpdate, h,
    get0_remove0_self]

/-- C1 witness: the amended statement at HTTP 200 on a store holding a
cached catalog entry. -/
theorem C1_mutation_invalidation_witness :
    (200 ≤ 200 ∧ 200 < 300) ∧
    get0 (artworkCreate (set0 emptyStore "admin_art" (.arr []) "v1" 0)
        (.http 200 .null)).2 "admin_art" = .null :=
  ⟨by decide,
   (C1_mutation_invalidation (set0 emptyStore "admin_art" (.arr []) "v1" 0)
      200 .null (by decide)).2.1⟩

/-- C3: a 304 Not Modified with no truthy cached body makes the fetch path
propagate the original 304 error — an error carrying the response status,
distinct from the transport-failure error, never empty data — and the
Prints resolver then renders the hardcoded static default with provenance
`fallback`. -/
theorem C3_protocol_violation_surfaced (s : Store) (body : JVal)
    (etagHdr : Option String) (now : Nat)
    (h : truthy (get0 s "admin_art") = false) :
    artworkGetAll s (.http 304 body etagHdr) now
      = (.error (.httpStatus 304), s) ∧
    FetchErr.httpStatus 304 ≠ FetchErr.network ∧
    loadPrints s (.http 304 body etagHdr) now
      = ((printsFallback, .fallback), s) := by
  have hg : artworkGetAll s (.http 304 body etagHdr) now
      = (.error (.httpStatus 304), s) := by
    simp [artworkGetAll, interceptedGet, h]
  refine ⟨hg, by simp, ?_⟩
  simp [loadPrints, h, hg]

/-- C3 witness: the empty store answered with a bare 304. -/
theorem C3_protocol_violation_surfaced_witness :
    truthy (get0 emptyStore "admin_art") = false ∧
    loadPrints emptyStore (.http 304 .null none) 0
      = ((printsFallback, .fallback), emptyStore) :=
  ⟨rfl, (C3_protocol_violation_surfaced emptyStore .null none 0 rfl).2.2⟩

/-- C5: a fetch answered 200 with a (truthy) body and a (non-empty) ETag
stores the entry; a second fetch answered 304 returns the same data and
leaves the stored entry — its `storedAt` timestamp included — untouched,
whatever time the second call happens at. -/
theorem C5_fetch_304_idempotent (s : Store) (body : JVal) (etag : String)
    (now1 now2 : Nat) (hb : truthy body = true) (he : ¬etag.isEmpty) :
    artworkGetAll s (.http 200 body (some etag)) now1
      = (.ok body, set0 s "admin_art" body etag now1) ∧
    artworkGetAll (set0 s "admin_art" body etag now1)
        (.http 304 .null none) now2
      = (.ok body, set0 s "admin_art" body etag now1) := by
  constructor
  · simp [artworkGetAll, interceptedGet, hb, he]
  · simp [artworkGetAll, interceptedGet, get0_set0_self, hb]

/-- C5 witness: an empty list body (truthy in JS) with validator `"v1"`,
fetched at time 0 and revalidated at time 1. -/
theorem C5_fetch_304_idempotent_witness :
    truthy (.arr []) = true ∧ ¬("v1" : String).isEmpty ∧
    artworkGetAll (set0 emptyStore "admin_art" (.arr []) "v1" 0)
        (.http 304 .null none) 1
      = (.ok (.arr []), set0 emptyStore "admin_art" (.arr []) "v1" 0) :=
  ⟨rfl, by decide,
   (C5_fetch_304_idempotent emptyStore (.arr []) "v1" 0 1 rfl (by decide)).2⟩

/-- C7: with no catalog entry in the store and the network failing, the
Prints resolver returns exactly the hardcoded static default, tagged with
provenance `fallback`. -/
theorem C7_fallback_on_network_failure (s : Store) (now : Nat)
    (h : s (CACHE_PFX ++ "admin_art") = none) :
    loadPrints s .netError now = ((printsFallback, .fallback), s) := by
  have hg : get0 s "admin_art" = .null := by
    simp [get0, cacheGet, lsGetItem, okD, h]
  simp [loadPrints, artworkGetAll, interceptedGet, hg, truthy]

/-- C7 witness: the empty store under a transport failure. -/
theorem C7_fallback_on_network_failure_witness :
    emptyStore (CACHE_PFX ++ "admin_art") = none ∧
    loadPrints emptyStore .netError 0
      = ((printsFallback, .fallback), emptyStore) :=
  ⟨rfl, C7_fallback_on_network_failure emptyStore 0 rfl⟩

/-- C10: a cached falsy payload is read back exactly as a miss — `get`
after storing `null` returns the same `null` an empty store returns — and
a 304 then finds no truthy cached body, so the fetch path propagates the
304 error rather than returning the stored falsy payload. -/
theorem C10_falsy_payload_is_miss (s : Store) (d : JVal) (etag : String)
    (now now2 : Nat) (body : JVal) (etagHdr : Option String)
    (hd : truthy d = false) :
    get0 (set0 s "admin_art" .null etag now) "admin_art"
      = get0 emptyStore "admin_art" ∧
    artworkGetAll (set0 s "admin_art" d etag now)
        (.http 304 body etagHdr) now2
      = (.error (.httpStatus 304), set0 s "admin_art" d etag now) := by
  constructor
  · rw [get0_set0_self]
    rfl
  · simp [artworkGetAll, interceptedGet, get0_set0_self, hd]

/-- C10 witness: the stored payload `null` itself. -/
theorem C10_falsy_payload_is_miss_witness :
    truthy .null = false ∧
    artworkGetAll (set0 emptyStore "admin_art" .null "v1" 0)
        (.http 304 .null none) 1
      = (.error (.httpStatus 304), set0 emptyStore "admin_art" .null "v1" 0) :=
  ⟨rfl, (C10_falsy_payload_is_miss emptyStore .null "v1" 0 1 .null none rfl).2⟩

/-- C6: both page normalizations send `{data:{items:[...]}}`,
`{items:[...]}` and a bare list with the same elements to the same list
contents, and a payload matching none of the ordered extraction rules
(not an array, with falsy `data`, `items` and `artworks` fields) is mapped
by the Prints normalization to the empty list — no exception is possible,
the normalizer being a total function. -/
theorem C6_normalization_shapes (xs : List JVal) (d : JVal)
    (h1 : asArr d = none) (h2 : ruleDataItems d = none)
    (h3 : asArr (jsField d "items") = none)
    (h4 : asArr (jsField d "artworks") = none) :
    normalizePrints (.obj [("data", .obj [("items", .arr xs)])]) = xs ∧
    normalizePrints (.obj [("items", .arr xs)]) = xs ∧
    normalizePrints (.arr xs) = xs ∧
    normalizeDetail (.obj [("data", .obj [("items", .arr xs)])]) = some xs ∧
    normalizeDetail (.obj [("items", .arr xs)]) = some xs ∧
    normalizeDetail (.arr xs) = some xs ∧
    normalizePrints d = [] := by
  refine ⟨?_, ?_, rfl, ?_, ?_, rfl, ?_⟩
  · simp [normalizePrints, ruleDataItems, jsField, asArr, truthy,
      List.lookup]
  · simp [normalizePrints, ruleDataItems, jsField, asArr, truthy,
      List.lookup]
  · simp [normalizeDetail, ruleDataItems, jsField, asArr, truthy,
      List.lookup]
  · simp [normalizeDetail, ruleDataItems, jsField, asArr, truthy,
      List.lookup]
  · simp only [normalizePrints, h1, h2, h3, h4]

/-- C6 witness: a two-element item list and a plain-string payload that no
extraction rule matches. -/
theorem C6_normalization_shapes_witness :
    asArr (.str "oops") = none ∧
    ruleDataItems (.str "oops") = none ∧
    asArr (jsField (.str "oops") "items") = none ∧
    asArr (jsField (.str "oops") "artworks") = none ∧
    (normalizePrints (.obj [("data", .obj [("items",
        .arr [.num 1, .num 2])])]) = [.num 1, .num 2] ∧
     normalizePrints (.str "oops") = []) := by
  refine ⟨rfl, rfl, rfl, rfl, ?_, ?_⟩
  · exact (C6_normalization_shapes [.num 1, .num 2] (.str "oops")
      rfl rfl rfl rfl).1
  · exact (C6_normalization_shapes [.num 1, .num 2] (.str "oops")
      rfl rfl rfl rfl).2.2.2.2.2.2

end ArtGallery
